import Mathlib

/-!
Shallow embedding of the coordinate-space, annotation-store, label-placement
and export logic of the pdf-coordinates application (src/types.ts,
src/App.tsx, src/components/PdfCanvas.tsx, src/services/pdfModifier.ts).
JavaScript numbers are modelled as rationals (ℚ); all the formulas involved
are linear, so the rational model is exact.
-/

namespace PdfCoords

/-- From src/types.ts: `PageDimensions { width, height }` in page-point units. -/
structure PageDimensions where
  width : ℚ
  height : ℚ
deriving DecidableEq

/-- From src/types.ts: `AnnotationPoint { id, pageIndex, x, y, displayX, displayY }`.
`x, y` are canonical PDF-point coordinates (bottom-left origin); `displayX, displayY`
are cached CSS/View coordinates relative to the page top-left (unscaled). -/
structure AnnotationPoint where
  id : String
  pageIndex : Nat
  x : ℚ
  y : ℚ
  displayX : ℚ
  displayY : ℚ
deriving DecidableEq

/-- From src/types.ts: `enum CoordinateOrigin`. -/
inductive CoordinateOrigin where
  | BOTTOM_LEFT
  | TOP_LEFT
  | TOP_RIGHT
  | BOTTOM_RIGHT
deriving DecidableEq

open CoordinateOrigin

/-- JavaScript `Math.round`: nearest integer, ties toward +∞. -/
def jsRound (q : ℚ) : ℤ := ⌊q + 1/2⌋

/-- The `x:..., y:...` string printed with `Math.round`ed components, as in the
template literals of PdfCanvas.tsx getLabelText and pdfModifier.ts. -/
def qRoundStr (q : ℚ) : String := toString (jsRound q)

/-- From src/App.tsx lines 187-197, `getDisplayCoordinates`: look up the dimensions of the
page (`pageDimensions[ann.pageIndex]`); when absent return the canonical
point unchanged, otherwise apply the origin-convention switch. -/
def getDisplayCoordinates (origin : CoordinateOrigin)
    (pageDimensions : Nat → Option PageDimensions) (ann : AnnotationPoint) : ℚ × ℚ :=
  match pageDimensions ann.pageIndex with
  | none => (ann.x, ann.y)
  | some dims =>
    match origin with
    | TOP_LEFT => (ann.x, dims.height - ann.y)
    | TOP_RIGHT => (dims.width - ann.x, dims.height - ann.y)
    | BOTTOM_RIGHT => (dims.width - ann.x, ann.y)
    | BOTTOM_LEFT => (ann.x, ann.y)

/-- From src/App.tsx lines 199-243, the body of the `map` inside
`updateAnnotationFromDisplay`, applied to the matching annotation: when the
dimensions of the page are unknown the annotation is returned unchanged; otherwise
the supplied display component(s) are converted back to canonical under the
current origin and the cached display coordinates are recomputed. -/
def updateAnnFromDisplay (origin : CoordinateOrigin)
    (pageDimensions : Nat → Option PageDimensions)
    (newX newY : Option ℚ) (ann : AnnotationPoint) : AnnotationPoint :=
  match pageDimensions ann.pageIndex with
  | none => ann
  | some dims =>
    let canonicalX : ℚ :=
      match newX with
      | none => ann.x
      | some nx =>
        match origin with
        | TOP_RIGHT => dims.width - nx
        | BOTTOM_RIGHT => dims.width - nx
        | _ => nx
    let canonicalY : ℚ :=
      match newY with
      | none => ann.y
      | some ny =>
        match origin with
        | TOP_LEFT => dims.height - ny
        | TOP_RIGHT => dims.height - ny
        | _ => ny
    { ann with
      x := canonicalX
      y := canonicalY
      displayX := canonicalX
      displayY := dims.height - canonicalY }

/-- From src/App.tsx lines 199-243, `updateAnnotationFromDisplay` over the whole
annotation list (`prev.map`, identity on non-matching ids). -/
def updateAnnotationFromDisplay (origin : CoordinateOrigin)
    (pageDimensions : Nat → Option PageDimensions) (id : String)
    (newX newY : Option ℚ) (anns : List AnnotationPoint) : List AnnotationPoint :=
  anns.map fun ann =>
    if ann.id = id then updateAnnFromDisplay origin pageDimensions newX newY ann else ann

/-- From src/App.tsx lines 245-266, the body of the `map` inside
`handleUpdateAnnotationPosition`, applied to the matching annotation:
stores the new canonical position; `displayX = x`; `displayY` is recomputed
as `height - y` when the dimensions of the page are known and otherwise keeps
its previous value. -/
def updateAnnPosition (pageDimensions : Nat → Option PageDimensions)
    (x y : ℚ) (ann : AnnotationPoint) : AnnotationPoint :=
  let displayX := x
  let displayY :=
    match pageDimensions ann.pageIndex with
    | none => ann.displayY
    | some dims => dims.height - y
  { ann with x := x, y := y, displayX := displayX, displayY := displayY }

/-- From src/App.tsx lines 245-266, `handleUpdateAnnotationPosition` over the
whole annotation list. -/
def handleUpdateAnnotationPosition (pageDimensions : Nat → Option PageDimensions)
    (id : String) (x y : ℚ) (anns : List AnnotationPoint) : List AnnotationPoint :=
  anns.map fun ann =>
    if ann.id = id then updateAnnPosition pageDimensions x y ann else ann

/-- From src/components/PdfCanvas.tsx lines 42-48: the drag state captured on
mouse-down over an existing annotation. -/
structure DragState where
  id : String
  startX : ℚ
  startY : ℚ
  initialPdfX : ℚ
  initialPdfY : ℚ

/-- From src/components/PdfCanvas.tsx lines 57-78, `handleWindowMouseMove`:
convert the screen pixel delta to a canonical delta (divide by scale, negate Y),
and clamp each component to the page only when `pageDimensions` is known.
Returns the `(newX, newY)` passed to `onUpdateAnnotationPosition`. -/
def handleWindowMouseMove (scale : ℚ) (pageDimensions : Option PageDimensions)
    (st : DragState) (clientX clientY : ℚ) : ℚ × ℚ :=
  let deltaX := clientX - st.startX
  let deltaY := clientY - st.startY
  let pdfDeltaX := deltaX / scale
  let pdfDeltaY := -(deltaY / scale)
  let newX := st.initialPdfX + pdfDeltaX
  let newY := st.initialPdfY + pdfDeltaY
  match pageDimensions with
  | some d => (max 0 (min newX d.width), max 0 (min newY d.height))
  | none => (newX, newY)

/-- From src/components/PdfCanvas.tsx lines 95-129, `handleClick`: translate the
click position into canonical bottom-left coordinates using the rendered page
rectangle and the zoom scale, and create the annotation with cached top-left
display coordinates. -/
def handleClick (scale : ℚ) (pageNumber : Nat) (newId : String)
    (rectLeft rectTop rectHeight : ℚ) (clientX clientY : ℚ) : AnnotationPoint :=
  let offsetX := clientX - rectLeft
  let offsetY := clientY - rectTop
  let unscaledX := offsetX / scale
  let unscaledY := offsetY / scale
  let pageHeightPoints := rectHeight / scale
  let pdfX := unscaledX
  let pdfY := pageHeightPoints - unscaledY
  { id := newId
    pageIndex := pageNumber
    x := pdfX
    y := pdfY
    displayX := unscaledX
    displayY := unscaledY }

/-- From src/components/PdfCanvas.tsx lines 165-189, `getLabelText`: with
unknown page dimensions the canonical values are used unchanged; otherwise the
origin-convention switch is applied; the result is rendered with `Math.round`. -/
def getLabelText (origin : CoordinateOrigin) (pageDimensions : Option PageDimensions)
    (ann : AnnotationPoint) : String :=
  match pageDimensions with
  | none => "x:" ++ qRoundStr ann.x ++ ", y:" ++ qRoundStr ann.y
  | some dims =>
    let xy : ℚ × ℚ :=
      match origin with
      | TOP_LEFT => (ann.x, dims.height - ann.y)
      | TOP_RIGHT => (dims.width - ann.x, dims.height - ann.y)
      | BOTTOM_RIGHT => (dims.width - ann.x, ann.y)
      | BOTTOM_LEFT => (ann.x, ann.y)
    "x:" ++ qRoundStr xy.1 ++ ", y:" ++ qRoundStr xy.2

/-- From src/App.tsx lines 268-282, the comparator inside `sortedAnnotations`:
pageIndex ascending; within a page `yDiff = b.y - a.y`, used directly when
`|yDiff| > 2`, otherwise `a.x - b.x`. A negative result orders `a` first. -/
def annCompare (a b : AnnotationPoint) : ℚ :=
  if a.pageIndex ≠ b.pageIndex then (a.pageIndex : ℚ) - (b.pageIndex : ℚ)
  else
    let yDiff := b.y - a.y
    if |yDiff| > 2 then yDiff else a.x - b.x

/-- From src/App.tsx lines 268-282, `sortedAnnotations`: the stable sort of the
annotation list by the comparator (JavaScript `Array.prototype.sort` is stable;
`List.insertionSort` with the non-strict relation of the comparator is its model). -/
def sortedAnnotations (anns : List AnnotationPoint) : List AnnotationPoint :=
  List.insertionSort (fun a b => annCompare a b ≤ 0) anns

/-- An abstract page-content draw operation, recording the calls the exporter
makes (`page.drawCircle`, `page.drawRectangle`, `page.drawText` in
src/services/pdfModifier.ts). -/
inductive DrawOp where
  | circle (x y size : ℚ)
  | rect (x y w h : ℚ)
  | text (s : String) (x y size : ℚ)
deriving DecidableEq

/-- From src/services/pdfModifier.ts lines 45-63: the display coordinates
computed for the exported label text under the active origin. -/
def exportDisplayCoords (origin : CoordinateOrigin) (width height : ℚ)
    (ann : AnnotationPoint) : ℚ × ℚ :=
  match origin with
  | TOP_LEFT => (ann.x, height - ann.y)
  | TOP_RIGHT => (width - ann.x, height - ann.y)
  | BOTTOM_RIGHT => (width - ann.x, ann.y)
  | BOTTOM_LEFT => (ann.x, ann.y)

/-- From src/services/pdfModifier.ts lines 86-100: the label-box placement.
Base position `(x + r, y + r)`; each axis is checked once against the page edge
and flipped to the opposite side of the dot when the box would overflow. -/
def placeLabel (x y r boxW boxH width height : ℚ) : ℚ × ℚ :=
  let boxX := x + r
  let boxY := y + r
  let boxX := if boxX + boxW > width then x - r - boxW else boxX
  let boxY := if boxY + boxH > height then y - r - boxH else boxY
  (boxX, boxY)

/-- From src/services/pdfModifier.ts lines 32-132: the sequence of draw calls
the exporter emits for one annotation on a page of the given size. The font
metrics (`widthOfTextAtSize` at size 8 and `heightAtSize 8`) are abstracted as
the `textWidthOf` function and the `textHeight` constant. -/
def drawAnnOps (origin : CoordinateOrigin) (width height : ℚ)
    (textWidthOf : String → ℚ) (textHeight : ℚ) (ann : AnnotationPoint) : List DrawOp :=
  let DOT_RADIUS : ℚ := 3
  let CORNER_RADIUS : ℚ := 3
  let TEXT_SIZE : ℚ := 8
  let PADDING : ℚ := 2
  let disp := exportDisplayCoords origin width height ann
  let text := "x:" ++ qRoundStr disp.1 ++ ", y:" ++ qRoundStr disp.2
  let textWidth := textWidthOf text
  let boxWidth := textWidth + PADDING * 2
  let boxHeight := textHeight + PADDING * 2
  let box := placeLabel ann.x ann.y DOT_RADIUS boxWidth boxHeight width height
  let boxX := box.1
  let boxY := box.2
  [ DrawOp.circle ann.x ann.y DOT_RADIUS,
    DrawOp.rect boxX (boxY + CORNER_RADIUS) boxWidth (boxHeight - 2 * CORNER_RADIUS),
    DrawOp.rect (boxX + CORNER_RADIUS) boxY (boxWidth - 2 * CORNER_RADIUS) boxHeight,
    DrawOp.circle (boxX + CORNER_RADIUS) (boxY + CORNER_RADIUS) CORNER_RADIUS,
    DrawOp.circle (boxX + boxWidth - CORNER_RADIUS) (boxY + CORNER_RADIUS) CORNER_RADIUS,
    DrawOp.circle (boxX + boxWidth - CORNER_RADIUS) (boxY + boxHeight - CORNER_RADIUS) CORNER_RADIUS,
    DrawOp.circle (boxX + CORNER_RADIUS) (boxY + boxHeight - CORNER_RADIUS) CORNER_RADIUS,
    DrawOp.text text (boxX + PADDING) (boxY + PADDING + 3/2) TEXT_SIZE ]

/-- From src/services/pdfModifier.ts lines 16-135: the draw calls emitted onto
page `p` (1-based). Annotations are grouped by `pageIndex`; a group whose page
number does not satisfy `0 ≤ pageIndex - 1 < pages.length` is skipped; the
page `getSize()` call provides the width and height. -/
def exportPageOps (pages : List PageDimensions) (origin : CoordinateOrigin)
    (textWidthOf : String → ℚ) (textHeight : ℚ)
    (anns : List AnnotationPoint) (p : Nat) : List DrawOp :=
  if 1 ≤ p then
    match pages.get? (p - 1) with
    | some page =>
      (anns.filter fun a => a.pageIndex == p).flatMap
        (drawAnnOps origin page.width page.height textWidthOf textHeight)
    | none => []
  else []

/-- From src/services/pdfModifier.ts lines 4-149, the control flow of `saveAnnotatedPdf`: the fallible stages (`PDFDocument.load`, `embedFont`, the drawing pass,
`pdfDoc.save`) run inside one `try`; any failure is caught and re-thrown as the
single generic error `Failed to save annotated PDF.`; the produced bytes are
returned only when every stage succeeded. -/
def saveAnnotatedPdf {Doc Font Bytes : Type}
    (load : Except String Doc) (embedF : Doc → Except String Font)
    (draw : Doc → Font → Except String Doc) (save : Doc → Except String Bytes) :
    Except String Bytes :=
  let body : Except String Bytes :=
    match load with
    | Except.error e => Except.error e
    | Except.ok doc =>
      match embedF doc with
      | Except.error e => Except.error e
      | Except.ok font =>
        match draw doc font with
        | Except.error e => Except.error e
        | Except.ok drawn => save drawn
  match body with
  | Except.ok bytes => Except.ok bytes
  | Except.error _ => Except.error "Failed to save annotated PDF."

/-- Modelled from the spec: the four-origin conversion table of §4.1
(canonical → UserFrame), written directly from the table in the spec; used to
compare the conversion sites of the source against the spec. -/
def userFrameTable (origin : CoordinateOrigin) (d : PageDimensions) (p : ℚ × ℚ) : ℚ × ℚ :=
  match origin with
  | BOTTOM_LEFT => (p.1, p.2)
  | TOP_LEFT => (p.1, d.height - p.2)
  | TOP_RIGHT => (d.width - p.1, d.height - p.2)
  | BOTTOM_RIGHT => (d.width - p.1, p.2)

/-- Modelled from the spec: the ordering relation of `orderedView()` (§4.2),
written directly from the words of the spec: `pageIndex` ascending; within a page
canonical `y` descending when the two values differ by more than the 2-point
tolerance, otherwise canonical `x` ascending. `a` sorts no later than `b`. -/
def specOrderedViewLE (a b : AnnotationPoint) : Prop :=
  a.pageIndex < b.pageIndex ∨
    (a.pageIndex = b.pageIndex ∧
      ((|a.y - b.y| > 2 ∧ b.y ≤ a.y) ∨ (|a.y - b.y| ≤ 2 ∧ a.x ≤ b.x)))

/-- The full drag event as wired in the application: the PdfCanvas window
mouse-move handler computes the (possibly clamped) canonical target from the
dimensions of the current page and calls the App callback
`handleUpdateAnnotationPosition` with the id of the dragged entry. -/
def dragUpdate (pageDims : Nat → Option PageDimensions) (pageNumber : Nat)
    (scale : ℚ) (st : DragState) (cx cy : ℚ)
    (anns : List AnnotationPoint) : List AnnotationPoint :=
  let target := handleWindowMouseMove scale (pageDims pageNumber) st cx cy
  handleUpdateAnnotationPosition pageDims st.id target.1 target.2 anns

/-- US-Letter page, the concrete size used by the examples in the spec. -/
def d612 : PageDimensions := { width := 612, height := 792 }

/-- Concrete point for the worked examples in the spec: canonical (100, 700)
on page 1. -/
def testAnn : AnnotationPoint :=
  { id := "t", pageIndex := 1, x := 100, y := 700, displayX := 100, displayY := 92 }

/-- Concrete annotation for the ordering example: x = 50, y = 700. -/
def annA : AnnotationPoint :=
  { id := "a", pageIndex := 1, x := 50, y := 700, displayX := 0, displayY := 0 }

/-- Concrete annotation for the ordering example: x = 10, y = 700.5. -/
def annB : AnnotationPoint :=
  { id := "b", pageIndex := 1, x := 10, y := 700.5, displayX := 0, displayY := 0 }

/-- Concrete annotation for the ordering example: x = 5, y = 650. -/
def annC : AnnotationPoint :=
  { id := "c", pageIndex := 1, x := 5, y := 650, displayX := 0, displayY := 0 }

theorem qRoundStr_of_jsRound {q : ℚ} {n : ℤ} (h : jsRound q = n) :
    qRoundStr q = toString n := by
  rw [qRoundStr, h]

/-- C1: for every origin convention, every canonical point and every known
page dimensions, converting to the UserFrame with `getDisplayCoordinates` and
feeding both components back through the UserFrame-to-canonical conversion of
`updateAnnotationFromDisplay` restores the canonical point exactly. -/
theorem c1_userFrame_round_trip (origin : CoordinateOrigin)
    (pageDims : Nat → Option PageDimensions) (ann : AnnotationPoint)
    (d : PageDimensions) (h : pageDims ann.pageIndex = some d) :
    (updateAnnFromDisplay origin pageDims
        (some (getDisplayCoordinates origin pageDims ann).1)
        (some (getDisplayCoordinates origin pageDims ann).2) ann).x = ann.x ∧
    (updateAnnFromDisplay origin pageDims
        (some (getDisplayCoordinates origin pageDims ann).1)
        (some (getDisplayCoordinates origin pageDims ann).2) ann).y = ann.y := by
  cases origin <;> simp [getDisplayCoordinates, updateAnnFromDisplay, h]

theorem c1_userFrame_round_trip_witness :
    (updateAnnFromDisplay CoordinateOrigin.TOP_RIGHT (fun _ => some d612)
        (some (getDisplayCoordinates CoordinateOrigin.TOP_RIGHT (fun _ => some d612) testAnn).1)
        (some (getDisplayCoordinates CoordinateOrigin.TOP_RIGHT (fun _ => some d612) testAnn).2)
        testAnn).x = testAnn.x ∧
    (updateAnnFromDisplay CoordinateOrigin.TOP_RIGHT (fun _ => some d612)
        (some (getDisplayCoordinates CoordinateOrigin.TOP_RIGHT (fun _ => some d612) testAnn).1)
        (some (getDisplayCoordinates CoordinateOrigin.TOP_RIGHT (fun _ => some d612) testAnn).2)
        testAnn).y = testAnn.y :=
  c1_userFrame_round_trip CoordinateOrigin.TOP_RIGHT (fun _ => some d612) testAnn d612 rfl

/-- C2: the canonical-to-UserFrame conversion implements exactly the four-origin table of
the spec at each of its three sites — the sidebar display
(`getDisplayCoordinates`), the on-canvas label (`getLabelText`) and the
exported label (`exportDisplayCoords`) — and on a 612×792 page the canonical
point (100, 700) maps to (100, 92) top-left, (512, 92) top-right,
(512, 700) bottom-right and (100, 700) bottom-left at all three sites. -/
theorem c2_four_origin_table :
    (∀ (origin : CoordinateOrigin) (pageDims : Nat → Option PageDimensions)
        (ann : AnnotationPoint) (d : PageDimensions),
        pageDims ann.pageIndex = some d →
        getDisplayCoordinates origin pageDims ann =
          userFrameTable origin d (ann.x, ann.y)) ∧
    (∀ (origin : CoordinateOrigin) (d : PageDimensions) (ann : AnnotationPoint),
        exportDisplayCoords origin d.width d.height ann =
          userFrameTable origin d (ann.x, ann.y)) ∧
    (∀ (origin : CoordinateOrigin) (d : PageDimensions) (ann : AnnotationPoint),
        getLabelText origin (some d) ann =
          "x:" ++ qRoundStr (userFrameTable origin d (ann.x, ann.y)).1 ++
          ", y:" ++ qRoundStr (userFrameTable origin d (ann.x, ann.y)).2) ∧
    (getDisplayCoordinates CoordinateOrigin.TOP_LEFT (fun _ => some d612) testAnn = (100, 92) ∧
     getDisplayCoordinates CoordinateOrigin.TOP_RIGHT (fun _ => some d612) testAnn = (512, 92) ∧
     getDisplayCoordinates CoordinateOrigin.BOTTOM_RIGHT (fun _ => some d612) testAnn = (512, 700) ∧
     getDisplayCoordinates CoordinateOrigin.BOTTOM_LEFT (fun _ => some d612) testAnn = (100, 700)) ∧
    (exportDisplayCoords CoordinateOrigin.TOP_LEFT d612.width d612.height testAnn = (100, 92) ∧
     exportDisplayCoords CoordinateOrigin.TOP_RIGHT d612.width d612.height testAnn = (512, 92) ∧
     exportDisplayCoords CoordinateOrigin.BOTTOM_RIGHT d612.width d612.height testAnn = (512, 700) ∧
     exportDisplayCoords CoordinateOrigin.BOTTOM_LEFT d612.width d612.height testAnn = (100, 700)) ∧
    (getLabelText CoordinateOrigin.TOP_LEFT (some d612) testAnn = "x:100, y:92" ∧
     getLabelText CoordinateOrigin.TOP_RIGHT (some d612) testAnn = "x:512, y:92" ∧
     getLabelText CoordinateOrigin.BOTTOM_RIGHT (some d612) testAnn = "x:512, y:700" ∧
     getLabelText CoordinateOrigin.BOTTOM_LEFT (some d612) testAnn = "x:100, y:700") := by
  have hs100 : qRoundStr (100 : ℚ) = "100" := by
    rw [qRoundStr_of_jsRound (n := 100) (by norm_num [jsRound])]; rfl
  have hs700 : qRoundStr (700 : ℚ) = "700" := by
    rw [qRoundStr_of_jsRound (n := 700) (by norm_num [jsRound])]; rfl
  have hs92 : qRoundStr ((792 : ℚ) - 700) = "92" := by
    rw [qRoundStr_of_jsRound (n := 92) (by norm_num [jsRound])]; rfl
  have hs512 : qRoundStr ((612 : ℚ) - 100) = "512" := by
    rw [qRoundStr_of_jsRound (n := 512) (by norm_num [jsRound])]; rfl
  refine ⟨?_, ?_, ?_, ?_, ?_, ?_⟩
  · intro origin pageDims ann d h
    cases origin <;> simp [getDisplayCoordinates, userFrameTable, h]
  · intro origin d ann
    cases origin <;> simp [exportDisplayCoords, userFrameTable]
  · intro origin d ann
    cases origin <;> simp [getLabelText, userFrameTable]
  · refine ⟨?_, ?_, ?_, ?_⟩ <;> norm_num [getDisplayCoordinates, d612, testAnn]
  · refine ⟨?_, ?_, ?_, ?_⟩ <;> norm_num [exportDisplayCoords, d612, testAnn]
  · refine ⟨?_, ?_, ?_, ?_⟩ <;>
      simp [getLabelText, d612, testAnn, hs100, hs700, hs92, hs512]

theorem c2_four_origin_table_witness :
    getDisplayCoordinates CoordinateOrigin.TOP_RIGHT (fun _ => some d612) testAnn =
      userFrameTable CoordinateOrigin.TOP_RIGHT d612 (testAnn.x, testAnn.y) :=
  c2_four_origin_table.1 CoordinateOrigin.TOP_RIGHT (fun _ => some d612) testAnn d612 rfl

/-- C3: the label placement of the exporter starts from box origin (x+r, y+r) and
flips each axis independently, each checked once: horizontally to x−r−boxW
when the box would cross the right page edge, vertically to y−r−boxH when it
would cross the top edge; on a 612×792 page with r = 3 and a 40×20 box, a
marker at (600, 700) flips horizontally only, giving box anchor (557, 703). -/
theorem c3_label_flip :
    (∀ x y r boxW boxH width height : ℚ,
        placeLabel x y r boxW boxH width height =
          ((if x + r + boxW > width then x - r - boxW else x + r),
           (if y + r + boxH > height then y - r - boxH else y + r))) ∧
    placeLabel 600 700 3 40 20 612 792 = (557, 703) ∧
    (600 : ℚ) + 3 + 40 > 612 ∧ ¬((700 : ℚ) + 3 + 20 > 792) := by
  refine ⟨fun x y r boxW boxH width height => rfl, ?_, by norm_num, by norm_num⟩
  norm_num [placeLabel]

/-- C4: a drag update on an annotation whose page dimensions are known clamps
each canonical component independently to [0, width] / [0, height], stores the
clamped position, and recomputes the cached View coordinates
(displayX = x, displayY = height − y); the updated annotation is exactly what
the composed drag pipeline produces. -/
theorem c4_drag_clamp (pageDims : Nat → Option PageDimensions) (pageNumber : Nat)
    (scale : ℚ) (st : DragState) (cx cy : ℚ) (ann : AnnotationPoint)
    (d : PageDimensions)
    (hpage : ann.pageIndex = pageNumber) (hid : ann.id = st.id)
    (hd : pageDims pageNumber = some d) (hw : 0 ≤ d.width) (hh : 0 ≤ d.height)
    (t : ℚ × ℚ) (ht : t = handleWindowMouseMove scale (pageDims pageNumber) st cx cy)
    (res : AnnotationPoint) (hres : res = updateAnnPosition pageDims t.1 t.2 ann) :
    t.1 = max 0 (min (st.initialPdfX + (cx - st.startX) / scale) d.width) ∧
    t.2 = max 0 (min (st.initialPdfY + -((cy - st.startY) / scale)) d.height) ∧
    res.x = t.1 ∧ res.y = t.2 ∧
    res.displayX = res.x ∧ res.displayY = d.height - res.y ∧
    0 ≤ res.x ∧ res.x ≤ d.width ∧ 0 ≤ res.y ∧ res.y ≤ d.height ∧
    dragUpdate pageDims pageNumber scale st cx cy [ann] = [res] := by
  subst hres ht hpage
  have h1 : (handleWindowMouseMove scale (pageDims ann.pageIndex) st cx cy).1 =
      max 0 (min (st.initialPdfX + (cx - st.startX) / scale) d.width) := by
    simp [handleWindowMouseMove, hd]
  have h2 : (handleWindowMouseMove scale (pageDims ann.pageIndex) st cx cy).2 =
      max 0 (min (st.initialPdfY + -((cy - st.startY) / scale)) d.height) := by
    simp [handleWindowMouseMove, hd]
  have hrx : (updateAnnPosition pageDims
      (handleWindowMouseMove scale (pageDims ann.pageIndex) st cx cy).1
      (handleWindowMouseMove scale (pageDims ann.pageIndex) st cx cy).2 ann).x =
      max 0 (min (st.initialPdfX + (cx - st.startX) / scale) d.width) := by
    simp [updateAnnPosition, h1]
  have hry : (updateAnnPosition pageDims
      (handleWindowMouseMove scale (pageDims ann.pageIndex) st cx cy).1
      (handleWindowMouseMove scale (pageDims ann.pageIndex) st cx cy).2 ann).y =
      max 0 (min (st.initialPdfY + -((cy - st.startY) / scale)) d.height) := by
    simp [updateAnnPosition, h2]
  refine ⟨h1, h2, rfl, rfl, rfl, ?_, ?_, ?_, ?_, ?_, ?_⟩
  · simp [updateAnnPosition, hd]
  · rw [hrx]; exact le_max_left 0 _
  · rw [hrx]; exact max_le hw (min_le_right _ _)
  · rw [hry]; exact le_max_left 0 _
  · rw [hry]; exact max_le hh (min_le_right _ _)
  · simp [dragUpdate, handleUpdateAnnotationPosition, hid]

theorem c4_drag_clamp_witness :
    ((0 : ℚ), (792 : ℚ)).1 =
      max 0 (min ((0 : ℚ) + (-10 - 0) / 1) d612.width) ∧
    ((0 : ℚ), (792 : ℚ)).2 =
      max 0 (min ((0 : ℚ) + -(((-900 : ℚ) - 0) / 1)) d612.height) ∧
    (updateAnnPosition (fun _ => some d612) 0 792 testAnn).x = ((0 : ℚ), (792 : ℚ)).1 ∧
    (updateAnnPosition (fun _ => some d612) 0 792 testAnn).y = ((0 : ℚ), (792 : ℚ)).2 ∧
    (updateAnnPosition (fun _ => some d612) 0 792 testAnn).displayX =
      (updateAnnPosition (fun _ => some d612) 0 792 testAnn).x ∧
    (updateAnnPosition (fun _ => some d612) 0 792 testAnn).displayY =
      d612.height - (updateAnnPosition (fun _ => some d612) 0 792 testAnn).y ∧
    0 ≤ (updateAnnPosition (fun _ => some d612) 0 792 testAnn).x ∧
    (updateAnnPosition (fun _ => some d612) 0 792 testAnn).x ≤ d612.width ∧
    0 ≤ (updateAnnPosition (fun _ => some d612) 0 792 testAnn).y ∧
    (updateAnnPosition (fun _ => some d612) 0 792 testAnn).y ≤ d612.height ∧
    dragUpdate (fun _ => some d612) 1 1 ⟨"t", 0, 0, 0, 0⟩ (-10) (-900) [testAnn] =
      [updateAnnPosition (fun _ => some d612) 0 792 testAnn] :=
  c4_drag_clamp (fun _ => some d612) 1 1 ⟨"t", 0, 0, 0, 0⟩ (-10) (-900) testAnn d612
    rfl rfl rfl (by norm_num [d612]) (by norm_num [d612])
    (0, 792) (by norm_num [handleWindowMouseMove, d612])
    (updateAnnPosition (fun _ => some d612) 0 792 testAnn) rfl

/-- C5: after each operation that mutates the canonical position of a point —
a UserFrame coordinate-field edit (`updateAnnotationFromDisplay`), a drag
update (`handleUpdateAnnotationPosition`) and creation by click
(`handleClick`, whose rendered page rectangle has height scale×pageHeight) —
the cached display coordinates satisfy displayX = x and
displayY = pageHeight − y for the page the point belongs to. -/
theorem c5_display_cache_invariant (origin : CoordinateOrigin)
    (pageDims : Nat → Option PageDimensions) (ann : AnnotationPoint)
    (d : PageDimensions) (h : pageDims ann.pageIndex = some d)
    (nX nY : Option ℚ) (x y : ℚ)
    (scale : ℚ) (pageNumber : Nat) (newId : String)
    (rectLeft rectTop rectHeight cx cy : ℚ) (d2 : PageDimensions)
    (hpn : pageDims pageNumber = some d2)
    (hrect : rectHeight = scale * d2.height) (hscale : scale ≠ 0) :
    ((updateAnnFromDisplay origin pageDims nX nY ann).displayX =
        (updateAnnFromDisplay origin pageDims nX nY ann).x ∧
      (updateAnnFromDisplay origin pageDims nX nY ann).displayY =
        d.height - (updateAnnFromDisplay origin pageDims nX nY ann).y) ∧
    ((updateAnnPosition pageDims x y ann).displayX =
        (updateAnnPosition pageDims x y ann).x ∧
      (updateAnnPosition pageDims x y ann).displayY =
        d.height - (updateAnnPosition pageDims x y ann).y) ∧
    ((handleClick scale pageNumber newId rectLeft rectTop rectHeight cx cy).displayX =
        (handleClick scale pageNumber newId rectLeft rectTop rectHeight cx cy).x ∧
      (handleClick scale pageNumber newId rectLeft rectTop rectHeight cx cy).displayY =
        d2.height -
          (handleClick scale pageNumber newId rectLeft rectTop rectHeight cx cy).y) := by
  refine ⟨?_, ?_, ?_⟩
  · cases nX <;> cases nY <;> cases origin <;> simp [updateAnnFromDisplay, h]
  · simp [updateAnnPosition, h]
  · constructor
    · rfl
    · simp only [handleClick, hrect]
      field_simp

theorem c5_display_cache_invariant_witness :
    ((updateAnnFromDisplay CoordinateOrigin.TOP_LEFT (fun _ => some d612)
        (some 40) (some 60) testAnn).displayX =
      (updateAnnFromDisplay CoordinateOrigin.TOP_LEFT (fun _ => some d612)
        (some 40) (some 60) testAnn).x ∧
     (updateAnnFromDisplay CoordinateOrigin.TOP_LEFT (fun _ => some d612)
        (some 40) (some 60) testAnn).displayY =
      d612.height - (updateAnnFromDisplay CoordinateOrigin.TOP_LEFT (fun _ => some d612)
        (some 40) (some 60) testAnn).y) ∧
    ((updateAnnPosition (fun _ => some d612) 7 11 testAnn).displayX =
      (updateAnnPosition (fun _ => some d612) 7 11 testAnn).x ∧
     (updateAnnPosition (fun _ => some d612) 7 11 testAnn).displayY =
      d612.height - (updateAnnPosition (fun _ => some d612) 7 11 testAnn).y) ∧
    ((handleClick 1 1 "n" 0 0 792 10 20).displayX = (handleClick 1 1 "n" 0 0 792 10 20).x ∧
     (handleClick 1 1 "n" 0 0 792 10 20).displayY =
      d612.height - (handleClick 1 1 "n" 0 0 792 10 20).y) :=
  c5_display_cache_invariant CoordinateOrigin.TOP_LEFT (fun _ => some d612) testAnn d612 rfl
    (some 40) (some 60) 7 11 1 1 "n" 0 0 792 10 20 d612 rfl
    (by norm_num [d612]) one_ne_zero

/-- C6: the comparator of the ordered view is exactly the rule of the spec — pageIndex
ascending, then canonical y descending when the values differ by more than the
2-point tolerance, otherwise canonical x ascending — `sortedAnnotations` is a
permutation of its input, and the three points (x=50,y=700), (x=10,y=700.5),
(x=5,y=650) on page 1 are ordered (x=10,y=700.5), (x=50,y=700), (x=5,y=650). -/
theorem c6_ordered_view :
    (∀ a b : AnnotationPoint, annCompare a b ≤ 0 ↔ specOrderedViewLE a b) ∧
    (∀ anns : List AnnotationPoint, (sortedAnnotations anns).Perm anns) ∧
    sortedAnnotations [annA, annB, annC] = [annB, annA, annC] := by
  refine ⟨?_, ?_, ?_⟩
  · intro a b
    unfold annCompare specOrderedViewLE
    by_cases hp : a.pageIndex = b.pageIndex
    · simp only [hp, ne_eq, not_true_eq_false, if_false, if_neg]
      rw [abs_sub_comm a.y b.y]
      by_cases hy : |b.y - a.y| > 2
      · have hy2 : ¬ |b.y - a.y| ≤ 2 := not_le.mpr hy
        simp [hy, hy2, sub_nonpos]
      · have hy2 : |b.y - a.y| ≤ 2 := not_lt.mp hy
        simp [hy, hy2, sub_nonpos, not_lt.mpr hy2]
    · simp only [ne_eq, hp, not_false_eq_true, if_true, if_pos, sub_nonpos,
        Nat.cast_le, hp, false_and, or_false]
      constructor
      · intro hle
        exact lt_of_le_of_ne hle hp
      · exact le_of_lt
  · intro anns
    exact List.perm_insertionSort _ anns
  · show List.insertionSort _ _ = _
    simp only [List.insertionSort, List.orderedInsert]
    norm_num [annCompare, annA, annB, annC, abs]

/-- C7: for an annotation whose page has no `PageDimensions` entry, each
UserFrame conversion — sidebar display, coordinate-field edit, on-canvas
label — falls back to the canonical value unchanged (the conversions are total
functions, so none can throw). -/
theorem c7_missing_dims_fallback (origin : CoordinateOrigin)
    (pageDims : Nat → Option PageDimensions) (ann : AnnotationPoint)
    (nX nY : Option ℚ) (h : pageDims ann.pageIndex = none) :
    getDisplayCoordinates origin pageDims ann = (ann.x, ann.y) ∧
    updateAnnFromDisplay origin pageDims nX nY ann = ann ∧
    getLabelText origin none ann =
      "x:" ++ qRoundStr ann.x ++ ", y:" ++ qRoundStr ann.y := by
  refine ⟨?_, ?_, rfl⟩
  · simp [getDisplayCoordinates, h]
  · simp [updateAnnFromDisplay, h]

theorem c7_missing_dims_fallback_witness :
    getDisplayCoordinates CoordinateOrigin.TOP_RIGHT (fun _ => none) testAnn =
      (testAnn.x, testAnn.y) ∧
    updateAnnFromDisplay CoordinateOrigin.TOP_RIGHT (fun _ => none)
      (some 40) (some 60) testAnn = testAnn ∧
    getLabelText CoordinateOrigin.TOP_RIGHT none testAnn =
      "x:" ++ qRoundStr testAnn.x ++ ", y:" ++ qRoundStr testAnn.y :=
  c7_missing_dims_fallback CoordinateOrigin.TOP_RIGHT (fun _ => none) testAnn
    (some 40) (some 60) rfl

/-- C8: for every export invocation, either every stage succeeded and the full
output bytes are returned, or the result is the single generic
export-failed error; no partial output is ever returned. -/
theorem c8_export_failure_generic {Doc Font Bytes : Type}
    (load : Except String Doc) (embedF : Doc → Except String Font)
    (draw : Doc → Font → Except String Doc) (save : Doc → Except String Bytes) :
    (∃ doc font drawn bytes,
        load = Except.ok doc ∧ embedF doc = Except.ok font ∧
        draw doc font = Except.ok drawn ∧ save drawn = Except.ok bytes ∧
        saveAnnotatedPdf load embedF draw save = Except.ok bytes) ∨
    saveAnnotatedPdf load embedF draw save =
      Except.error "Failed to save annotated PDF." := by
  cases hl : load with
  | error e => right; simp [saveAnnotatedPdf, hl]
  | ok doc =>
    cases hf : embedF doc with
    | error e => right; simp [saveAnnotatedPdf, hl, hf]
    | ok font =>
      cases hdr : draw doc font with
      | error e => right; simp [saveAnnotatedPdf, hl, hf, hdr]
      | ok drawn =>
        cases hs : save drawn with
        | error e => right; simp [saveAnnotatedPdf, hl, hf, hdr, hs]
        | ok bytes =>
          left
          exact ⟨doc, font, drawn, bytes, rfl, hf, hdr, hs, by
            simp [saveAnnotatedPdf, hl, hf, hdr, hs]⟩

/-- C9: every annotation in the list whose pageIndex identifies a page of the
document is drawn on that page: all of its draw calls appear in the output of
that page, among them a filled disc of the dot radius 3 centered at its canonical
(x, y), the two label-box rectangles anchored by the flip rule, and the label
text "x:{round(UserFrame.x)}, y:{round(UserFrame.y)}" under the active
origin convention. -/
theorem c9_export_draws_every (pages : List PageDimensions)
    (origin : CoordinateOrigin) (tw : String → ℚ) (th : ℚ)
    (anns : List AnnotationPoint) (ann : AnnotationPoint) (p : Nat)
    (page : PageDimensions)
    (hmem : ann ∈ anns) (hp : ann.pageIndex = p) (h1 : 1 ≤ p)
    (hpage : pages.get? (p - 1) = some page)
    (disp : ℚ × ℚ) (hdisp : disp = exportDisplayCoords origin page.width page.height ann)
    (text : String) (htext : text = "x:" ++ qRoundStr disp.1 ++ ", y:" ++ qRoundStr disp.2)
    (boxW boxH : ℚ) (hboxW : boxW = tw text + 2 * 2) (hboxH : boxH = th + 2 * 2)
    (box : ℚ × ℚ) (hbox : box = placeLabel ann.x ann.y 3 boxW boxH page.width page.height) :
    (∀ op ∈ drawAnnOps origin page.width page.height tw th ann,
        op ∈ exportPageOps pages origin tw th anns p) ∧
    DrawOp.circle ann.x ann.y 3 ∈ drawAnnOps origin page.width page.height tw th ann ∧
    DrawOp.rect box.1 (box.2 + 3) boxW (boxH - 2 * 3) ∈
      drawAnnOps origin page.width page.height tw th ann ∧
    DrawOp.rect (box.1 + 3) box.2 (boxW - 2 * 3) boxH ∈
      drawAnnOps origin page.width page.height tw th ann ∧
    DrawOp.text text (box.1 + 2) (box.2 + 2 + 3 / 2) 8 ∈
      drawAnnOps origin page.width page.height tw th ann := by
  subst hbox hboxW hboxH htext hdisp hp
  refine ⟨?_, ?_, ?_, ?_, ?_⟩
  · intro op hop
    simp only [exportPageOps, if_pos h1, hpage]
    rw [List.mem_flatMap]
    refine ⟨ann, List.mem_filter.mpr ⟨hmem, ?_⟩, hop⟩
    simp
  · simp [drawAnnOps]
  · simp [drawAnnOps]
  · simp [drawAnnOps]
  · simp [drawAnnOps]

theorem c9_export_draws_every_witness :
    DrawOp.circle testAnn.x testAnn.y 3 ∈
      exportPageOps [d612] CoordinateOrigin.BOTTOM_LEFT (fun _ => 40) 16 [testAnn] 1 :=
  (c9_export_draws_every [d612] CoordinateOrigin.BOTTOM_LEFT (fun _ => 40) 16
      [testAnn] testAnn 1 d612 (by simp) rfl (by decide) rfl
      (100, 700) (by simp [exportDisplayCoords, d612, testAnn])
      "x:100, y:700" (by
        rw [qRoundStr_of_jsRound (q := (100 : ℚ)) (n := 100) (by norm_num [jsRound]),
          qRoundStr_of_jsRound (q := (700 : ℚ)) (n := 700) (by norm_num [jsRound])]
        rfl)
      44 20 (by norm_num) (by norm_num)
      (103, 703) (by norm_num [placeLabel, d612, testAnn])).1
    (DrawOp.circle testAnn.x testAnn.y 3)
    (c9_export_draws_every [d612] CoordinateOrigin.BOTTOM_LEFT (fun _ => 40) 16
      [testAnn] testAnn 1 d612 (by simp) rfl (by decide) rfl
      (100, 700) (by simp [exportDisplayCoords, d612, testAnn])
      "x:100, y:700" (by
        rw [qRoundStr_of_jsRound (q := (100 : ℚ)) (n := 100) (by norm_num [jsRound]),
          qRoundStr_of_jsRound (q := (700 : ℚ)) (n := 700) (by norm_num [jsRound])]
        rfl)
      44 20 (by norm_num) (by norm_num)
      (103, 703) (by norm_num [placeLabel, d612, testAnn])).2.1

/-- C10: when the dimensions of the dragged page are unknown, the drag pipeline
applies the raw unclamped canonical target, sets displayX to the new x, and
leaves displayY at its previous (possibly stale) value. -/
theorem c10_drag_without_dims (pageDims : Nat → Option PageDimensions)
    (pageNumber : Nat) (scale : ℚ) (st : DragState) (cx cy : ℚ)
    (ann : AnnotationPoint)
    (hpage : ann.pageIndex = pageNumber) (hd : pageDims pageNumber = none)
    (t : ℚ × ℚ) (ht : t = handleWindowMouseMove scale (pageDims pageNumber) st cx cy)
    (res : AnnotationPoint) (hres : res = updateAnnPosition pageDims t.1 t.2 ann) :
    t.1 = st.initialPdfX + (cx - st.startX) / scale ∧
    t.2 = st.initialPdfY + -((cy - st.startY) / scale) ∧
    res.x = t.1 ∧ res.y = t.2 ∧ res.displayX = t.1 ∧ res.displayY = ann.displayY := by
  subst hres ht hpage
  have h1 : handleWindowMouseMove scale (pageDims ann.pageIndex) st cx cy =
      (st.initialPdfX + (cx - st.startX) / scale,
       st.initialPdfY + -((cy - st.startY) / scale)) := by
    simp [handleWindowMouseMove, hd]
  refine ⟨by rw [h1], by rw [h1], rfl, rfl, rfl, ?_⟩
  simp [updateAnnPosition, hd]

theorem c10_drag_without_dims_witness :
    ((-10 : ℚ), (900 : ℚ)).1 = 5 + ((-15 : ℚ) - 0) / 1 ∧
    ((-10 : ℚ), (900 : ℚ)).2 = 5 + -(((-895 : ℚ) - 0) / 1) ∧
    (updateAnnPosition (fun _ => none) (-10) 900
      ⟨"s", 1, 5, 5, 5, 787⟩).x = ((-10 : ℚ), (900 : ℚ)).1 ∧
    (updateAnnPosition (fun _ => none) (-10) 900
      ⟨"s", 1, 5, 5, 5, 787⟩).y = ((-10 : ℚ), (900 : ℚ)).2 ∧
    (updateAnnPosition (fun _ => none) (-10) 900
      ⟨"s", 1, 5, 5, 5, 787⟩).displayX = ((-10 : ℚ), (900 : ℚ)).1 ∧
    (updateAnnPosition (fun _ => none) (-10) 900
      ⟨"s", 1, 5, 5, 5, 787⟩).displayY =
        (AnnotationPoint.mk "s" 1 5 5 5 787).displayY :=
  c10_drag_without_dims (fun _ => none) 1 1 ⟨"s", 0, 0, 5, 5⟩ (-15) (-895)
    ⟨"s", 1, 5, 5, 5, 787⟩ rfl rfl
    (-10, 900) (by norm_num [handleWindowMouseMove])
    (updateAnnPosition (fun _ => none) (-10) 900 ⟨"s", 1, 5, 5, 5, 787⟩) rfl

end PdfCoords
